import Mathlib

/-!
Verification of the Engagement Decision & Timing Engine of the
Kindroid Discord multi-account manager (`src/discordManager.ts`,
`src/constants.ts`, `src/types.ts`).

JavaScript `number` arithmetic on the small decimal constants used by the
decision functions is modelled exactly with `ℚ`; timestamps (`Date.now()`)
are modelled with `ℤ` milliseconds; the `Math.random()` draws are passed in
explicitly as rationals in `[0,1)`; the JS `Map`s are modelled as
insertion-ordered association lists, with `Map.set` replacing in place.
-/

/-! ## Constants (`src/constants.ts`) -/

def MAX_BOT_CHAIN : ℕ := 3

def BOT_CHAIN_INACTIVITY_RESET_MS : ℤ := 600000

def RECENTLY_SENT_IMAGE_CACHE_SIZE : ℕ := 30

def MAX_UNIQUE_IMAGE_FETCH_ATTEMPTS : ℕ := 5

def MAX_RESPONSE_DELAY_MS : ℤ := 15 * 60 * 1000

def MIN_RESPONSE_DELAY_MS : ℤ := 2000

def TYPING_INDICATOR_MIN_PERCENTAGE : ℚ := 0.2

def TYPING_INDICATOR_MAX_PERCENTAGE : ℚ := 0.6

/-! ## Data model (`src/types.ts`) -/

inductive AccountType
  | bot
  | user
deriving DecidableEq

inductive MessageFrequency
  | high
  | medium
  | low
deriving DecidableEq

inductive MessageBehavior
  | normal
  | aggressive
  | passive
deriving DecidableEq

structure RedditImageConfig where
  subreddits : List String
  minMessages : ℕ
  maxMessages : ℕ
  nsfw : Bool
deriving DecidableEq

/-- Flattened form of the `BotConfig | UserConfig` union: the legacy
`messageFrequency`/`messageBehavior` fields exist only on `UserConfig` and
are optional there; `interactionRate` is optional on both. -/
structure AccountConfig where
  id : String
  accountType : AccountType
  interactionRate : Option ℕ
  messageFrequency : Option MessageFrequency
  messageBehavior : Option MessageBehavior
  redditConfig : Option RedditImageConfig
deriving DecidableEq

/-! ## Text content analysis (the regex tests of `discordManager.ts`) -/

/-- Lower-casing used to model the `/i` regex flag. -/
def lowerStr (s : String) : String := String.mk (s.toList.map Char.toLower)

/-- Single-character regex test such as `/\?/.test(content)`. -/
def strContains (s : String) (c : Char) : Bool := s.toList.contains c

/-- Test whether `needle` is a leading segment of `hay`. -/
def charsStartWith : List Char → List Char → Bool
  | _, [] => true
  | [], _ :: _ => false
  | h :: hs, n :: ns => h == n && charsStartWith hs ns

/-- Test whether `needle` occurs somewhere inside `hay`. -/
def charsContain (hay needle : List Char) : Bool :=
  match hay with
  | [] => needle.isEmpty
  | _ :: rest => charsStartWith hay needle || charsContain rest needle

/-- Test whether `needle` occurs as a substring of `content` (ASCII case-insensitively),
modelling `/(...)/i.test(content)` for a literal alternative. -/
def containsWord (content : String) (needle : String) : Bool :=
  charsContain (lowerStr content).toList needle.toList

/-- The emotional-content regex of `shouldAccountRespond` (line 303):
`/(!|\?|wow|amazing|great|terrible|awful|love|hate|awesome|fantastic|horrible)/i`. -/
def containsEmotionsUnified (content : String) : Bool :=
  ["!", "?", "wow", "amazing", "great", "terrible", "awful", "love",
   "hate", "awesome", "fantastic", "horrible"].any (containsWord content)

/-- The emotional-content regex of `shouldLegacyUserAccountRespond`
(line 383): `/(!|\?|wow|amazing|great|terrible|awful|love|hate)/i`. -/
def containsEmotionsLegacy (content : String) : Bool :=
  ["!", "?", "wow", "amazing", "great", "terrible", "awful", "love",
   "hate"].any (containsWord content)

/-! ## Probability model -/

/-- The 5-segment piecewise-linear base response chance of
`shouldAccountRespond` (lines 281-292), as a function of the unified
interaction rate. -/
def unifiedBaseChance (interactionRate : ℕ) : ℚ :=
  if interactionRate ≤ 20 then
    ((interactionRate : ℚ) / 20) * 0.05
  else if interactionRate ≤ 40 then
    0.05 + (((interactionRate : ℚ) - 20) / 20) * 0.10
  else if interactionRate ≤ 60 then
    0.15 + (((interactionRate : ℚ) - 40) / 20) * 0.15
  else if interactionRate ≤ 80 then
    0.30 + (((interactionRate : ℚ) - 60) / 20) * 0.20
  else
    0.50 + (((interactionRate : ℚ) - 80) / 20) * 0.20

/-- The final response chance computed by `shouldAccountRespond`
(lines 281-311) on the unified path, just before the `Math.random()`
comparison: question/length/emotion/exclamation boosts, then the 0.8 cap. -/
def unifiedFinalChance (interactionRate : ℕ) (content : String) : ℚ :=
  let base := unifiedBaseChance interactionRate
  let isQuestion := strContains content '?'
  let base := if isQuestion then base * 1.8 else base
  let base := if 100 < content.length then base * 1.3 else base
  let base := if containsEmotionsUnified content then base * 1.4 else base
  let base := if strContains content '!' && !isQuestion then base * 1.2 else base
  min base 0.8

/-- The `messageFrequency` switch of `shouldLegacyUserAccountRespond`
(lines 349-361); an absent field hits the `default` arm (0.1). -/
def legacyBaseFrequency (cfg : AccountConfig) : ℚ :=
  match cfg.messageFrequency with
  | some .high => 0.3
  | some .medium => 0.15
  | some .low => 0.05
  | none => 0.1

/-- The `messageBehavior` multiplier switch of
`shouldLegacyUserAccountRespond` (lines 364-375). -/
def legacyBehaviorAdjusted (cfg : AccountConfig) : ℚ :=
  match cfg.messageBehavior with
  | some .aggressive => legacyBaseFrequency cfg * 1.5
  | some .passive => legacyBaseFrequency cfg * 0.5
  | _ => legacyBaseFrequency cfg

/-- The final response chance of `shouldLegacyUserAccountRespond`
(lines 347-386) at the last `Math.random()` comparison: the source caps at
0.5 first (line 378) and applies the length/emotion boosts afterwards
(lines 385-386). -/
def legacyFinalChance (cfg : AccountConfig) (content : String) : ℚ :=
  let capped := min (legacyBehaviorAdjusted cfg) 0.5
  let b1 := if 100 < content.length then capped * 1.2 else capped
  if containsEmotionsLegacy content then b1 * 1.3 else b1

/-- The chance that a question is answered outright on the legacy path
(lines 340-341); an absent `messageBehavior` gives 0.4. -/
def questionResponseChance (cfg : AccountConfig) : ℚ :=
  match cfg.messageBehavior with
  | some .aggressive => 0.7
  | some .passive => 0.2
  | _ => 0.4

/-- Function `shouldLegacyUserAccountRespond` (lines 325-390); `qQuestion` and `q`
are the two successive `Math.random()` draws. -/
def shouldLegacyUserAccountRespond (cfg : AccountConfig) (content : String)
    (isMentioned containsAccountName : Bool) (qQuestion q : ℚ) : Bool :=
  if isMentioned || containsAccountName then true
  else if strContains content '?' && decide (qQuestion < questionResponseChance cfg) then
    true
  else
    decide (q < legacyFinalChance cfg content)

/-- Function `shouldAccountRespond` (lines 248-315); the unified path compares a
single draw `q` against `unifiedFinalChance`. -/
def shouldAccountRespond (cfg : AccountConfig) (content : String)
    (isMentioned containsAccountName : Bool) (qQuestion q : ℚ) : Bool :=
  if isMentioned || containsAccountName then true
  else
    match cfg.interactionRate, cfg.accountType with
    | none, .bot => false
    | none, .user =>
        shouldLegacyUserAccountRespond cfg content isMentioned
          containsAccountName qQuestion q
    | some r, _ => decide (q < unifiedFinalChance r content)

/-! ## Concrete instances used by the claims -/

/-- A legacy-kind configuration with high frequency and aggressive
behavior. -/
def cfgLegacyHighAggressive : AccountConfig :=
  ⟨"legacy-ha", .user, none, some .high, some .aggressive, none⟩

/-- A 101-character text containing the emotional keyword "wow" and
neither a question mark nor an exclamation mark. -/
def longEmotionalText : String := "wow" ++ String.mk (List.replicate 98 'a')

/-! ## Association-list model of the JS `Map`s -/

/-- Lookup modelling `Map.get`: first matching key. -/
def mapGet {α : Type} (m : List (String × α)) (k : String) : Option α :=
  match m with
  | [] => none
  | (k', v) :: rest => if k' = k then some v else mapGet rest k

/-- Update modelling `Map.set`: replace in place, insertion order preserved; a new key is
appended at the end. -/
def mapSet {α : Type} (m : List (String × α)) (k : String) (v : α) :
    List (String × α) :=
  match m with
  | [] => [(k, v)]
  | (k', v') :: rest =>
      if k' = k then (k, v) :: rest else (k', v') :: mapSet rest k v

/-! ## Chain Guard (`shouldAllowAccountResponse`, lines 36-111) -/

/-- Record `AccountConversationChain` (lines 36-40). -/
structure AccountConversationChain where
  chainCount : ℕ
  lastAccountId : String
  lastActivity : ℤ
deriving DecidableEq

/-- The `accountToAccountChains` map. -/
def ChainMap : Type := List (String × AccountConversationChain)

/-- Function `shouldAllowAccountResponse` (lines 60-111), with the map passed
in and returned explicitly and `now` the value of `Date.now()`.  The
in-place inactivity reset of the stored object (lines 77-80) is modelled
by writing the reset entry back whenever the entry existed. -/
def shouldAllowAccountResponse (chains : ChainMap)
    (channelId ourAccountId : String) (now : ℤ) : Bool × ChainMap :=
  if channelId = "" then (true, chains)
  else
    let stored := mapGet chains channelId
    let chainData := stored.getD ⟨0, "", 0⟩
    let c1 :=
      if BOT_CHAIN_INACTIVITY_RESET_MS < now - chainData.lastActivity then
        { chainData with chainCount := 0, lastAccountId := "" }
      else chainData
    let chains1 := if stored.isSome then mapSet chains channelId c1 else chains
    if c1.lastAccountId ≠ "" ∧ c1.lastAccountId = ourAccountId
        ∧ MAX_BOT_CHAIN ≤ c1.chainCount then
      (false, chains1)
    else
      let c2 : AccountConversationChain :=
        if c1.lastAccountId ≠ "" ∧ c1.lastAccountId = ourAccountId then
          ⟨c1.chainCount + 1, ourAccountId, now⟩
        else
          ⟨1, ourAccountId, now⟩
      let chains2 := mapSet chains channelId c2
      let chains3 :=
        if 1000 < chains2.length then
          chains2.filter (fun kv =>
            !decide (kv.2.lastActivity < now - BOT_CHAIN_INACTIVITY_RESET_MS * 2))
        else chains2
      (true, chains3)

/-! ## Timing model -/

/-- Modelled from the spec: `DEVELOPMENT_MODE` and `DEVELOPMENT_MAX_DELAY_MS`
are imported by `discordManager.ts` from `src/constants.ts` but are missing
from the sources; the spec says only that a shorter development ceiling
applies when a development mode flag is set, so both stay parameters here. -/
def hardMaxDelay (devMode : Bool) (devMaxDelayMs : ℤ) : ℤ :=
  if devMode then devMaxDelayMs else MAX_RESPONSE_DELAY_MS

/-- Function `isMessageUrgent` (lines 225-238). -/
def isMessageUrgent (content : String) (isMentioned : Bool) : Bool :=
  isMentioned || strContains content '?' || containsWord content "help" ||
    containsWord content "urgent" || containsWord content "quick" ||
    containsWord content "asap" || containsWord content "emergency"

/-- Function `calculateRealisticDelay` (lines 157-205); `q` is the random
draw in [0,1). -/
def calculateRealisticDelay (devMode : Bool) (devMaxDelayMs : ℤ)
    (timeSinceLastMs : ℤ) (isDM isUrgent : Bool) (q : ℚ) : ℤ :=
  let safeSinceLastMs : ℤ := max 0 timeSinceLastMs
  let minutesSinceLast : ℚ := (safeSinceLastMs : ℚ) / 60000
  let baseDelayRange : ℤ × ℤ :=
    if minutesSinceLast < 1 then (3, 25)
    else if minutesSinceLast < 10 then (15, 120)
    else if minutesSinceLast < 30 then (30, 240)
    else if minutesSinceLast < 120 then (60, 480)
    else (180, 900)
  let baseDelayRange :=
    if isDM then
      (max 2 ⌊(baseDelayRange.1 : ℚ) * 0.7⌋, ⌊(baseDelayRange.2 : ℚ) * 0.8⌋)
    else baseDelayRange
  let baseDelayRange :=
    if isUrgent then
      (max 2 ⌊(baseDelayRange.1 : ℚ) * 0.8⌋, ⌊(baseDelayRange.2 : ℚ) * 0.9⌋)
    else baseDelayRange
  let randomDelay :=
    ⌊q * ((baseDelayRange.2 : ℚ) - (baseDelayRange.1 : ℚ) + 1)⌋ +
      baseDelayRange.1
  let delayMs := randomDelay * 1000
  min (max delayMs MIN_RESPONSE_DELAY_MS) (hardMaxDelay devMode devMaxDelayMs)

/-- Function `calculateTypingDelay` (lines 212-217). -/
def calculateTypingDelay (totalDelayMs : ℤ) (q : ℚ) : ℤ :=
  let typingPercentage := TYPING_INDICATOR_MIN_PERCENTAGE +
    q * (TYPING_INDICATOR_MAX_PERCENTAGE - TYPING_INDICATOR_MIN_PERCENTAGE)
  ⌊(totalDelayMs : ℚ) * typingPercentage⌋

/-- The timing portion of the `messageCreate` handler (lines 661-707) and
of `handleDirectMessage` (lines 864-904): returns the actual pre-reply
wait and the typing offset used. -/
def messageFlowWait (devMode : Bool) (devMaxDelayMs : ℤ)
    (instantResponse : Bool) (timeSinceLastMs : ℤ) (isDM : Bool)
    (content : String) (isMentioned : Bool) (qDelay qTyping qSafeTyping : ℚ) :
    ℤ × ℤ :=
  let isUrgent := isMessageUrgent content isMentioned
  let responseDelayMs :=
    if instantResponse then 1000
    else calculateRealisticDelay devMode devMaxDelayMs timeSinceLastMs isDM
      isUrgent qDelay
  let typingDelayMs :=
    if instantResponse then 200
    else calculateTypingDelay responseDelayMs qTyping
  if 30000 < responseDelayMs then
    (10000, calculateTypingDelay 10000 qSafeTyping)
  else
    (responseDelayMs, typingDelayMs)

/-! ## Media Cadence Controller -/

/-- Record `ChannelMessageTracker` (`types.ts` lines 79-83). -/
structure ChannelMessageTracker where
  messageCount : ℕ
  targetMessageCount : ℤ
  lastImageTime : ℤ
deriving DecidableEq

def TrackerMap : Type := List (String × ChannelMessageTracker)

/-- The random target draw `Math.floor(Math.random() * (max - min + 1) + min)`
(lines 463-466 and 495-498). -/
def rollTarget (rc : RedditImageConfig) (q : ℚ) : ℤ :=
  ⌊q * ((rc.maxMessages : ℚ) - (rc.minMessages : ℚ) + 1)⌋ + rc.minMessages

/-- Function `shouldAttachRedditImage` (lines 444-504), with the
`channelMessageTrackers` map passed and returned explicitly; the paired
recency-cache deletion inside the creation-time sweep acts on a different
map and is not needed by the claims on this function. -/
def shouldAttachRedditImage (trackers : TrackerMap) (channelId : String)
    (cfg : AccountConfig) (forceImage : Bool) (q : ℚ) (now : ℤ) :
    Bool × TrackerMap :=
  match cfg.redditConfig with
  | none => (false, trackers)
  | some rc =>
    if rc.subreddits = [] then (false, trackers)
    else if forceImage then (true, trackers)
    else
      match mapGet trackers channelId with
      | none =>
        let trackers1 := mapSet trackers channelId ⟨1, rollTarget rc q, 0⟩
        let trackers2 :=
          if 1000 < trackers1.length then
            trackers1.filter (fun kv =>
              !(decide (0 < kv.2.lastImageTime) &&
                decide (kv.2.lastImageTime < now - 2592000000)))
          else trackers1
        (false, trackers2)
      | some tracker =>
        let count := tracker.messageCount + 1
        if tracker.targetMessageCount ≤ (count : ℤ) then
          (true, mapSet trackers channelId ⟨0, rollTarget rc q, now⟩)
        else
          (false, mapSet trackers channelId
            { tracker with messageCount := count })

/-- An account configured with the degenerate 3/3 media cadence. -/
def cfgMedia : AccountConfig :=
  ⟨"m", .bot, some 50, none, none, some ⟨["pics"], 3, 3, false⟩⟩

/-! ## Recency Cache (`getUnseenRandomRedditImage`) -/

/-- Record `RedditImageData` (`types.ts` lines 99-105); the binary buffer is not
modelled. -/
structure RedditImageData where
  id : String
  filename : String
  title : String
  subreddit : String
deriving DecidableEq

/-- The unique-fetch loop of `getUnseenRandomRedditImage` (lines 522-541):
`fetch n` is the result of the (n+1)-th call to `getRandomRedditImage`,
`attempt` the loop counter and the fuel counts the remaining iterations.
Returns the first fetched image not in the recency cache, if any. -/
def getUnseenLoop (fetch : ℕ → Option RedditImageData)
    (recentlySentIds : List String) : ℕ → ℕ → Option RedditImageData
  | _, 0 => none
  | attempt, fuel + 1 =>
    match fetch attempt with
    | none => getUnseenLoop fetch recentlySentIds (attempt + 1) fuel
    | some image =>
        if image.id ∈ recentlySentIds then
          getUnseenLoop fetch recentlySentIds (attempt + 1) fuel
        else some image

/-- Function `getUnseenRandomRedditImage` (lines 512-558), returning the fetched
image (if any) together with the updated per-channel recency cache. -/
def getUnseenRandomRedditImage (cfg : AccountConfig)
    (fetch : ℕ → Option RedditImageData) (recentlySentIds : List String) :
    Option RedditImageData × List String :=
  match cfg.redditConfig with
  | none => (none, recentlySentIds)
  | some rc =>
    if rc.subreddits = [] then (none, recentlySentIds)
    else
      match getUnseenLoop fetch recentlySentIds 0
          MAX_UNIQUE_IMAGE_FETCH_ATTEMPTS with
      | some image =>
          (some image,
            (image.id :: recentlySentIds).take RECENTLY_SENT_IMAGE_CACHE_SIZE)
      | none =>
        match fetch MAX_UNIQUE_IMAGE_FETCH_ATTEMPTS with
        | some lastAttemptImage =>
            (some lastAttemptImage,
              (lastAttemptImage.id :: recentlySentIds).take
                RECENTLY_SENT_IMAGE_CACHE_SIZE)
        | none => (none, recentlySentIds)

/-- A cached image and a fresh image for the C9 witness. -/
def imgA : RedditImageData := ⟨"a", "a.jpg", "A", "pics"⟩

def imgB : RedditImageData := ⟨"b", "b.jpg", "B", "pics"⟩

/-- A fetch oracle that returns the cached image on the 5 loop attempts
and a repeat-free image on the final attempt. -/
def seenFetch : ℕ → Option RedditImageData :=
  fun n => if n < 5 then some imgA else some imgB

/-! ## Decision Orchestrator (`messageCreate` handler) -/

inductive HandlerAction
  | skip
  | dmReply
  | guildReply
deriving DecidableEq

/-- Deletion modelling `Map.delete` (line 618). -/
def mapErase {α : Type} (m : List (String × α)) (k : String) :
    List (String × α) :=
  m.filter (fun kv => kv.1 != k)

/-- The decision portion of the `messageCreate` handler (lines 606-648):
which path the handler takes for an inbound message, together with the
chain map it leaves behind.  `handleDirectMessage` (lines 823-980) never
consults `shouldAccountRespond` or the chain guard, so the DM branch
resolves to `dmReply` directly. -/
def messageCreateAction (isSelf canRespond authorIsBot isDM : Bool)
    (cfg : AccountConfig) (content : String)
    (isMentioned containsAccountName : Bool) (qQ q : ℚ)
    (chains : ChainMap) (channelId : String) (now : ℤ) :
    HandlerAction × ChainMap :=
  if isSelf then (.skip, chains)
  else if !canRespond then (.skip, chains)
  else
    let chains1 :=
      if !authorIsBot && !isDM then mapErase chains channelId else chains
    if isDM then (.dmReply, chains1)
    else if !(shouldAccountRespond cfg content isMentioned
        containsAccountName qQ q) then (.skip, chains1)
    else
      match shouldAllowAccountResponse chains1 channelId cfg.id now with
      | (false, chains2) => (.skip, chains2)
      | (true, chains2) => (.guildReply, chains2)

/-! ## Probability model lemmas -/

theorem unifiedBaseChance_step (r : ℕ) :
    unifiedBaseChance r ≤ unifiedBaseChance (r + 1) := by
  unfold unifiedBaseChance
  split_ifs <;> simp only [not_le] at * <;> qify at * <;> try linarith

theorem unifiedBaseChance_mono {a b : ℕ} (h : a ≤ b) :
    unifiedBaseChance a ≤ unifiedBaseChance b := by
  induction b, h using Nat.le_induction with
  | base => exact le_refl _
  | succ n _ ih => exact le_trans ih (unifiedBaseChance_step n)

theorem unifiedBaseChance_le (r : ℕ) (h : r ≤ 100) :
    unifiedBaseChance r ≤ 0.7 := by
  unfold unifiedBaseChance
  split_ifs <;> simp only [not_le] at * <;> qify at * <;> try linarith

theorem legacyBaseFrequency_nonneg (cfg : AccountConfig) :
    0 ≤ legacyBaseFrequency cfg := by
  obtain ⟨i, a, r, mf, mb, rc⟩ := cfg
  unfold legacyBaseFrequency
  rcases mf with _ | f
  · norm_num
  · cases f <;> norm_num

theorem legacyBehaviorAdjusted_nonneg (cfg : AccountConfig) :
    0 ≤ legacyBehaviorAdjusted cfg := by
  have hf := legacyBaseFrequency_nonneg cfg
  obtain ⟨i, a, r, mf, mb, rc⟩ := cfg
  unfold legacyBehaviorAdjusted
  rcases mb with _ | b
  · exact hf
  · cases b
    · exact hf
    · exact mul_nonneg hf (by norm_num)
    · exact mul_nonneg hf (by norm_num)

/-- On a no-boost text the unified final chance is the capped base chance. -/
theorem unifiedFinalChance_plain (content : String)
    (hq : strContains content '?' = false)
    (hx : strContains content '!' = false)
    (hl : content.length ≤ 100)
    (he : containsEmotionsUnified content = false) (r : ℕ) :
    unifiedFinalChance r content = min (unifiedBaseChance r) 0.8 := by
  simp only [unifiedFinalChance, hq, hx, he, Bool.false_and, Bool.and_false,
    if_neg (not_lt.mpr hl), if_false, Bool.false_eq_true]

/-! ## Claim C2 -/

/-- C2: for any engagement level in [1,100] and a plain text (no question
mark, no exclamation mark, length at most 100, no emotional keyword), with
the account not mentioned, the response probability of
`shouldAccountRespond` is monotonically non-decreasing in the level and at
the breakpoints 20/40/60/80/100 equals 0.05/0.15/0.30/0.50/0.70. -/
theorem unified_plain_monotone_and_breakpoints (content : String)
    (hq : strContains content '?' = false)
    (hx : strContains content '!' = false)
    (hl : content.length ≤ 100)
    (he : containsEmotionsUnified content = false) :
    (∀ r1 r2 : ℕ, 1 ≤ r1 → r1 ≤ r2 → r2 ≤ 100 →
      unifiedFinalChance r1 content ≤ unifiedFinalChance r2 content) ∧
    unifiedFinalChance 20 content = 0.05 ∧
    unifiedFinalChance 40 content = 0.15 ∧
    unifiedFinalChance 60 content = 0.30 ∧
    unifiedFinalChance 80 content = 0.50 ∧
    unifiedFinalChance 100 content = 0.70 := by
  have hplain := unifiedFinalChance_plain content hq hx hl he
  refine ⟨?_, ?_, ?_, ?_, ?_, ?_⟩
  · intro r1 r2 _ h12 _
    rw [hplain r1, hplain r2]
    exact min_le_min (unifiedBaseChance_mono h12) (le_refl _)
  · rw [hplain 20]; norm_num [unifiedBaseChance]
  · rw [hplain 40]; norm_num [unifiedBaseChance]
  · rw [hplain 60]; norm_num [unifiedBaseChance]
  · rw [hplain 80]; norm_num [unifiedBaseChance]
  · rw [hplain 100]; norm_num [unifiedBaseChance]

/-- Witness for C2 at the plain text "hello". -/
theorem unified_plain_monotone_and_breakpoints_witness :
    (unifiedFinalChance 20 "hello" ≤ unifiedFinalChance 60 "hello") ∧
    unifiedFinalChance 20 "hello" = 0.05 ∧
    unifiedFinalChance 100 "hello" = 0.70 := by
  have h := unified_plain_monotone_and_breakpoints "hello"
    (by decide) (by decide) (by decide) (by decide)
  exact ⟨h.1 20 60 (by norm_num) (by norm_num) (by norm_num), h.2.1,
    h.2.2.2.2.2⟩

/-- C1 counterexample: on the legacy path the 0.5 cap is applied before
the ×1.2 length and ×1.3 emotion boosts, so this long emotional text gets
final probability 0.45 × 1.2 × 1.3 = 0.702 > 0.5. -/
theorem legacy_cap_exceeded_counterexample :
    (1/2 : ℚ) < legacyFinalChance cfgLegacyHighAggressive longEmotionalText := by
  have h1 : containsEmotionsLegacy longEmotionalText = true := by decide
  have h2 : (100 : ℕ) < longEmotionalText.length := by decide
  simp only [legacyFinalChance, legacyBehaviorAdjusted, legacyBaseFrequency,
    cfgLegacyHighAggressive, h1, h2, if_pos, if_true]
  norm_num

/-- C1 amended: the unified path's computed probability is capped at 0.8,
while on the legacy path the 0.5 cap is applied before the ×1.2 length and
×1.3 emotion boosts, so its computed probability is only bounded by
0.5 × 1.2 × 1.3 = 0.78 (and can exceed 0.5). -/
theorem responseChance_caps :
    (∀ (r : ℕ) (content : String), unifiedFinalChance r content ≤ 0.8) ∧
    (∀ (cfg : AccountConfig) (content : String),
      legacyFinalChance cfg content ≤ 0.78) := by
  constructor
  · intro r content
    unfold unifiedFinalChance
    exact min_le_right _ _
  · intro cfg content
    have h0 : 0 ≤ min (legacyBehaviorAdjusted cfg) 0.5 :=
      le_min (legacyBehaviorAdjusted_nonneg cfg) (by norm_num)
    have h5 : min (legacyBehaviorAdjusted cfg) 0.5 ≤ 0.5 := min_le_right _ _
    unfold legacyFinalChance
    split_ifs <;> linarith

/-! ## Claim C6 -/

/-- C6 amended: with no engagement level configured, a bot-kind identity
never responds to an unaddressed message, but a user-kind identity without
legacy frequency/behavior fields falls back to the default 10% base
chance, so its probability is 0.1 (not 0) on a plain text and it responds
whenever the final draw is below 0.1. -/
theorem no_engagement_level_response (cfg : AccountConfig) :
    (cfg.accountType = .bot → cfg.interactionRate = none →
      ∀ (content : String) (qQ q : ℚ),
        shouldAccountRespond cfg content false false qQ q = false) ∧
    (cfg.accountType = .user → cfg.interactionRate = none →
      cfg.messageFrequency = none → cfg.messageBehavior = none →
      ∀ content : String, strContains content '?' = false →
        content.length ≤ 100 → containsEmotionsLegacy content = false →
        legacyFinalChance cfg content = 0.1 ∧
        ∀ qQ q : ℚ, q < 0.1 →
          shouldAccountRespond cfg content false false qQ q = true) := by
  obtain ⟨i, a, r, mf, mb, rc⟩ := cfg
  constructor
  · intro ha hr content qQ q
    subst ha; subst hr
    simp [shouldAccountRespond]
  · intro ha hr hf hb content hq hl he
    subst ha; subst hr; subst hf; subst hb
    have hval : legacyFinalChance ⟨i, .user, none, none, none, rc⟩ content
        = 0.1 := by
      simp only [legacyFinalChance, legacyBehaviorAdjusted,
        legacyBaseFrequency, he, if_neg (not_lt.mpr hl), Bool.false_eq_true,
        if_false]
      norm_num
    refine ⟨hval, ?_⟩
    intro qQ q hq01
    simp only [shouldAccountRespond, shouldLegacyUserAccountRespond,
      Bool.or_self, Bool.false_eq_true, if_false, hq, Bool.false_and,
      hval]
    exact decide_eq_true hq01

/-- Witness for C6 amended: a bot-kind and a user-kind bare configuration
evaluated on the plain text "hi". -/
theorem no_engagement_level_response_witness :
    shouldAccountRespond ⟨"b", .bot, none, none, none, none⟩ "hi"
      false false 0 0 = false ∧
    legacyFinalChance ⟨"u", .user, none, none, none, none⟩ "hi" = 0.1 ∧
    shouldAccountRespond ⟨"u", .user, none, none, none, none⟩ "hi"
      false false 0 0 = true := by
  refine ⟨(no_engagement_level_response _).1 rfl rfl "hi" 0 0, ?_, ?_⟩
  · exact ((no_engagement_level_response _).2 rfl rfl rfl rfl "hi"
      (by decide) (by decide) (by decide)).1
  · exact (((no_engagement_level_response _).2 rfl rfl rfl rfl "hi"
      (by decide) (by decide) (by decide)).2 0 0 (by norm_num))

/-- C6 counterexample: a user-kind identity with no engagement level and
no legacy fields does respond to an unaddressed plain message when the
final draw is 0 (the code's `default` switch arm gives a 10% base). -/
theorem bare_user_responds_counterexample :
    shouldAccountRespond ⟨"u", .user, none, none, none, none⟩ "hello"
      false false 1 0 = true := by
  have h1 : strContains "hello" '?' = false := by decide
  have h2 : containsEmotionsLegacy "hello" = false := by decide
  have h3 : ¬ (100 < "hello".length) := by decide
  simp only [shouldAccountRespond, shouldLegacyUserAccountRespond,
    legacyFinalChance, legacyBehaviorAdjusted, legacyBaseFrequency,
    h1, h2, if_neg h3, Bool.or_self, Bool.false_eq_true, if_false,
    Bool.false_and]
  norm_num

theorem mapGet_nil {α : Type} (k : String) : mapGet ([] : List (String × α)) k = none := rfl

theorem mapSet_self {α : Type} (m : List (String × α)) (k : String) (v : α)
    (h : mapGet m k = some v) : mapSet m k v = m := by
  induction m with
  | nil => simp [mapGet] at h
  | cons p rest ih =>
    obtain ⟨k', v'⟩ := p
    by_cases hk : k' = k
    · subst hk
      simp [mapGet] at h
      simp [mapSet, h]
    · simp [mapGet, hk] at h
      simp [mapSet, hk, ih h]

theorem mapSet_mapSet {α : Type} (m : List (String × α)) (k : String)
    (v w : α) : mapSet (mapSet m k v) k w = mapSet m k w := by
  induction m with
  | nil => simp [mapSet]
  | cons p rest ih =>
    obtain ⟨k', v'⟩ := p
    by_cases hk : k' = k
    · subst hk; simp [mapSet]
    · simp [mapSet, hk, ih]

theorem mapGet_mapSet_self {α : Type} (m : List (String × α)) (k : String)
    (v : α) : mapGet (mapSet m k v) k = some v := by
  induction m with
  | nil => simp [mapSet, mapGet]
  | cons p rest ih =>
    obtain ⟨k', v'⟩ := p
    by_cases hk : k' = k
    · subst hk; simp [mapSet, mapGet]
    · simp [mapSet, mapGet, hk, ih]

theorem mapSet_length_of_get {α : Type} (m : List (String × α))
    (k : String) (v w : α) (h : mapGet m k = some v) :
    (mapSet m k w).length = m.length := by
  induction m with
  | nil => simp [mapGet] at h
  | cons p rest ih =>
    obtain ⟨k', v'⟩ := p
    by_cases hk : k' = k
    · subst hk; simp [mapSet]
    · simp [mapGet, hk] at h
      simp [mapSet, hk, ih h]

theorem mapSet_length_of_none {α : Type} (m : List (String × α))
    (k : String) (w : α) (h : mapGet m k = none) :
    (mapSet m k w).length = m.length + 1 := by
  induction m with
  | nil => simp [mapSet]
  | cons p rest ih =>
    obtain ⟨k', v'⟩ := p
    by_cases hk : k' = k
    · subst hk; simp [mapGet] at h
    · simp [mapGet, hk] at h
      simp [mapSet, hk, ih h]

/-! ## Chain Guard step lemmas -/

/-- No entry for the channel: the reply is allowed and the entry is
created with count 1. -/
theorem shouldAllow_new (s : ChainMap) (ch acc : String) (now : ℤ)
    (hch : ch ≠ "") (hget : mapGet s ch = none) (hlen : s.length ≤ 999) :
    shouldAllowAccountResponse s ch acc now =
      (true, mapSet s ch ⟨1, acc, now⟩) := by
  have hlen2 : ¬ (1000 < (mapSet s ch
      (⟨1, acc, now⟩ : AccountConversationChain)).length) := by
    rw [mapSet_length_of_none s ch _ hget]; omega
  unfold shouldAllowAccountResponse
  simp [hch, hget, hlen2]

/-- Same identity replied last, fresh chain, count under the limit: the
reply is allowed and the count is incremented. -/
theorem shouldAllow_incr (s : ChainMap) (ch acc : String) (now : ℤ)
    (n : ℕ) (t : ℤ) (hch : ch ≠ "") (hacc : acc ≠ "")
    (hget : mapGet s ch = some ⟨n, acc, t⟩)
    (hfresh : now - t ≤ 600000) (hn : n < 3) (hlen : s.length ≤ 1000) :
    shouldAllowAccountResponse s ch acc now =
      (true, mapSet s ch ⟨n + 1, acc, now⟩) := by
  have hlen2 : ¬ (1000 < (mapSet s ch
      (⟨n + 1, acc, now⟩ : AccountConversationChain)).length) := by
    rw [mapSet_length_of_get s ch _ _ hget]; omega
  have hfresh' : ¬ (BOT_CHAIN_INACTIVITY_RESET_MS < now - t) := by
    unfold BOT_CHAIN_INACTIVITY_RESET_MS; omega
  have hcap : ¬ (MAX_BOT_CHAIN ≤ n) := by unfold MAX_BOT_CHAIN; omega
  unfold shouldAllowAccountResponse
  simp [hch, hget, hfresh', hacc, hcap, hlen2]

/-- Same identity replied last, fresh chain, count at the limit: the reply
is blocked and the map is unchanged. -/
theorem shouldAllow_blocked (s : ChainMap) (ch acc : String) (now : ℤ)
    (n : ℕ) (t : ℤ) (hch : ch ≠ "") (hacc : acc ≠ "")
    (hget : mapGet s ch = some ⟨n, acc, t⟩)
    (hfresh : now - t ≤ 600000) (hn : 3 ≤ n) :
    shouldAllowAccountResponse s ch acc now = (false, s) := by
  have hfresh' : ¬ (BOT_CHAIN_INACTIVITY_RESET_MS < now - t) := by
    unfold BOT_CHAIN_INACTIVITY_RESET_MS; omega
  have hcap : MAX_BOT_CHAIN ≤ n := by unfold MAX_BOT_CHAIN; omega
  have hset := mapSet_self s ch _ hget
  unfold shouldAllowAccountResponse
  simp [hch, hget, hfresh', hacc, hcap, hset]

/-- A different identity replied last: the reply is allowed and the count
resets to 1. -/
theorem shouldAllow_other (s : ChainMap) (ch acc : String) (now : ℤ)
    (n : ℕ) (a : String) (t : ℤ) (hch : ch ≠ "") (ha : a ≠ acc)
    (hget : mapGet s ch = some ⟨n, a, t⟩)
    (hfresh : now - t ≤ 600000) (hlen : s.length ≤ 1000) :
    shouldAllowAccountResponse s ch acc now =
      (true, mapSet s ch ⟨1, acc, now⟩) := by
  have hlen2 : ¬ (1000 < (mapSet s ch
      (⟨1, acc, now⟩ : AccountConversationChain)).length) := by
    rw [mapSet_length_of_get s ch _ _ hget]; omega
  have hfresh' : ¬ (BOT_CHAIN_INACTIVITY_RESET_MS < now - t) := by
    unfold BOT_CHAIN_INACTIVITY_RESET_MS; omega
  unfold shouldAllowAccountResponse
  simp [hch, hget, hfresh', ha, hlen2]

/-! ## Claim C3 -/

/-- C3: starting from an empty chain entry, identity A's candidate
replies are allowed three times consecutively (counts 1, 2, 3); with no
intervening human message and every gap within the 10-minute inactivity
window, A's 4th consecutive candidate reply is blocked; at that point a
candidate reply from a different identity B is allowed and resets the
stored consecutive count to 1. -/
theorem chain_guard_scenario (ch A B : String) (t1 t2 t3 t4 t5 : ℤ)
    (hch : ch ≠ "") (hA : A ≠ "") (hAB : A ≠ B)
    (g2 : t2 - t1 ≤ 600000) (g3 : t3 - t2 ≤ 600000)
    (g4 : t4 - t3 ≤ 600000) (g5 : t5 - t3 ≤ 600000) :
    shouldAllowAccountResponse [] ch A t1 =
      (true, [(ch, ⟨1, A, t1⟩)]) ∧
    shouldAllowAccountResponse [(ch, ⟨1, A, t1⟩)] ch A t2 =
      (true, [(ch, ⟨2, A, t2⟩)]) ∧
    shouldAllowAccountResponse [(ch, ⟨2, A, t2⟩)] ch A t3 =
      (true, [(ch, ⟨3, A, t3⟩)]) ∧
    shouldAllowAccountResponse [(ch, ⟨3, A, t3⟩)] ch A t4 =
      (false, [(ch, ⟨3, A, t3⟩)]) ∧
    shouldAllowAccountResponse [(ch, ⟨3, A, t3⟩)] ch B t5 =
      (true, [(ch, ⟨1, B, t5⟩)]) := by
  have e1 : mapGet ([] : ChainMap) ch = none := rfl
  have e2 : mapGet [(ch, (⟨1, A, t1⟩ : AccountConversationChain))] ch
      = some ⟨1, A, t1⟩ := by simp [mapGet]
  have e3 : mapGet [(ch, (⟨2, A, t2⟩ : AccountConversationChain))] ch
      = some ⟨2, A, t2⟩ := by simp [mapGet]
  have e4 : mapGet [(ch, (⟨3, A, t3⟩ : AccountConversationChain))] ch
      = some ⟨3, A, t3⟩ := by simp [mapGet]
  refine ⟨?_, ?_, ?_, ?_, ?_⟩
  · have h := shouldAllow_new [] ch A t1 hch e1 (by simp)
    simpa [mapSet] using h
  · have h := shouldAllow_incr _ ch A t2 1 t1 hch hA e2 g2 (by omega) (by simp)
    simpa [mapSet] using h
  · have h := shouldAllow_incr _ ch A t3 2 t2 hch hA e3 g3 (by omega) (by simp)
    simpa [mapSet] using h
  · exact shouldAllow_blocked _ ch A t4 3 t3 hch hA e4 g4 (by omega)
  · have h := shouldAllow_other _ ch B t5 3 A t3 hch hAB e4 g5 (by simp)
    simpa [mapSet] using h

/-- Witness for C3 with channel "c", identities "A" and "B" and
timestamps 0..4. -/
theorem chain_guard_scenario_witness :
    shouldAllowAccountResponse [("c", ⟨3, "A", 2⟩)] "c" "A" 3 =
      (false, [("c", ⟨3, "A", 2⟩)]) ∧
    shouldAllowAccountResponse [("c", ⟨3, "A", 2⟩)] "c" "B" 4 =
      (true, [("c", ⟨1, "B", 4⟩)]) := by
  have h := chain_guard_scenario "c" "A" "B" 0 1 2 3 4 (by decide)
    (by decide) (by decide) (by decide) (by decide) (by decide) (by decide)
  exact ⟨h.2.2.2.1, h.2.2.2.2⟩

/-! ## Claim C10 -/

/-- C10: whenever `shouldAllowAccountResponse` blocks a reply, the
returned chain map is exactly the input map: the blocked path neither
updates the channel's entry nor runs the eviction sweep. -/
theorem chain_blocked_pure (s : ChainMap) (ch acc : String) (now : ℤ)
    (hfalse : (shouldAllowAccountResponse s ch acc now).1 = false) :
    (shouldAllowAccountResponse s ch acc now).2 = s := by
  by_cases hch : ch = ""
  · simp [shouldAllowAccountResponse, hch] at hfalse
  · rcases hget : mapGet s ch with _ | cd
    · simp only [shouldAllowAccountResponse, if_neg hch, hget,
        Option.getD_none, Option.isSome_none] at hfalse ⊢
      split_ifs at hfalse ⊢ <;> simp_all
    · have hset := mapSet_self s ch cd hget
      simp only [shouldAllowAccountResponse, if_neg hch, hget,
        Option.getD_some, Option.isSome_some, if_pos] at hfalse ⊢
      split_ifs at hfalse ⊢ <;> simp_all

/-- Witness for C10 at a concrete blocked call. -/
theorem chain_blocked_pure_witness :
    (shouldAllowAccountResponse [("c", ⟨3, "A", 0⟩)] "c" "A" 1).2 =
      [("c", ⟨3, "A", 0⟩)] :=
  chain_blocked_pure _ "c" "A" 1 (by decide)

/-! ## Claim C5 -/

/-- C5: for every elapsed time (negatives treated as 0), every isDM/isUrgent
combination and every random draw, `calculateRealisticDelay` returns at
least 2000 ms and at most the hard ceiling (15 minutes in production, the
development ceiling in development mode, assuming that ceiling is itself at
least the 2-second floor). -/
theorem calculateRealisticDelay_bounds (devMode : Bool) (devMaxDelayMs : ℤ)
    (timeSinceLastMs : ℤ) (isDM isUrgent : Bool) (q : ℚ)
    (hdev : devMode = true → 2000 ≤ devMaxDelayMs) :
    MIN_RESPONSE_DELAY_MS ≤ calculateRealisticDelay devMode devMaxDelayMs
        timeSinceLastMs isDM isUrgent q ∧
    calculateRealisticDelay devMode devMaxDelayMs timeSinceLastMs isDM
        isUrgent q ≤ hardMaxDelay devMode devMaxDelayMs := by
  have hmax : MIN_RESPONSE_DELAY_MS ≤ hardMaxDelay devMode devMaxDelayMs := by
    unfold hardMaxDelay MIN_RESPONSE_DELAY_MS MAX_RESPONSE_DELAY_MS
    cases devMode
    · norm_num
    · simpa using hdev rfl
  unfold calculateRealisticDelay
  exact ⟨le_min (le_max_right _ _) hmax, min_le_right _ _⟩

/-- Witness for C5: production mode, negative elapsed time, DM + urgent. -/
theorem calculateRealisticDelay_bounds_witness :
    MIN_RESPONSE_DELAY_MS ≤ calculateRealisticDelay false 0 (-5) true true
        (1/3) ∧
    calculateRealisticDelay false 0 (-5) true true (1/3) ≤
      hardMaxDelay false 0 :=
  calculateRealisticDelay_bounds false 0 (-5) true true (1/3) (by simp)

/-! ## Claim C4 -/

/-- C4: absent the instant-response debug override, whenever the computed
response delay exceeds 30000 ms the flow substitutes a fixed 10000 ms wait
with a freshly computed typing offset; consequently the actual pre-reply
wait never exceeds 30 seconds. -/
theorem flow_wait_capped (devMode : Bool) (devMaxDelayMs : ℤ)
    (timeSinceLastMs : ℤ) (isDM : Bool) (content : String)
    (isMentioned : Bool) (qD qT qS : ℚ) :
    (30000 < calculateRealisticDelay devMode devMaxDelayMs timeSinceLastMs
        isDM (isMessageUrgent content isMentioned) qD →
      messageFlowWait devMode devMaxDelayMs false timeSinceLastMs isDM
        content isMentioned qD qT qS =
        (10000, calculateTypingDelay 10000 qS)) ∧
    (messageFlowWait devMode devMaxDelayMs false timeSinceLastMs isDM
        content isMentioned qD qT qS).1 ≤ 30000 := by
  constructor
  · intro h
    simp only [messageFlowWait, Bool.false_eq_true, if_false, if_pos h]
  · simp only [messageFlowWait, Bool.false_eq_true, if_false]
    split_ifs with h
    · norm_num
    · exact le_of_not_lt h

/-- Witness for C4: an extended-gap input whose computed delay is 540 s,
far beyond 30 s, which the flow replaces by the fixed 10 s wait. -/
theorem flow_wait_capped_witness :
    messageFlowWait false 0 false 1000000000 false "zzz" false (1/2) 0 0 =
      (10000, calculateTypingDelay 10000 0) ∧
    (messageFlowWait false 0 false 1000000000 false "zzz" false
      (1/2) 0 0).1 ≤ 30000 := by
  have hcalc : calculateRealisticDelay false 0 1000000000 false
      (isMessageUrgent "zzz" false) (1/2) = 540000 := by
    have hu : isMessageUrgent "zzz" false = false := by decide
    rw [hu]
    unfold calculateRealisticDelay hardMaxDelay MIN_RESPONSE_DELAY_MS
      MAX_RESPONSE_DELAY_MS
    norm_num
  have h := flow_wait_capped false 0 1000000000 false "zzz" false (1/2) 0 0
  exact ⟨h.1 (by rw [hcalc]; norm_num), h.2⟩

/-- With `minMessages = maxMessages = 3` every rolled target is exactly
3, for any draw in [0,1). -/
theorem rollTarget_degenerate (rc : RedditImageConfig) (q : ℚ)
    (hmin : rc.minMessages = 3) (hmax : rc.maxMessages = 3)
    (hq0 : 0 ≤ q) (hq1 : q < 1) : rollTarget rc q = 3 := by
  unfold rollTarget
  rw [hmin, hmax]
  norm_num
  exact ⟨hq0, hq1⟩

/-! ## Claim C8 -/

/-- C8: with min = max = 3 and no force override, for a channel with no
existing tracker the 1st observed message creates the tracker (count 1,
target 3) and returns false, the 2nd returns false, and the 3rd returns
true while resetting the count to 0, re-rolling the target inside
[min,max] (= 3) and recording the attachment instant. -/
theorem media_cadence_scenario (cfg : AccountConfig)
    (rc : RedditImageConfig) (hcfg : cfg.redditConfig = some rc)
    (hsub : rc.subreddits ≠ [])
    (hmin : rc.minMessages = 3) (hmax : rc.maxMessages = 3)
    (t0 : TrackerMap) (ch : String) (q1 q2 q3 : ℚ) (n1 n2 n3 : ℤ)
    (hget : mapGet t0 ch = none) (hlen : t0.length ≤ 999)
    (hq1 : 0 ≤ q1) (hq1' : q1 < 1) (hq3 : 0 ≤ q3) (hq3' : q3 < 1) :
    shouldAttachRedditImage t0 ch cfg false q1 n1 =
      (false, mapSet t0 ch ⟨1, 3, 0⟩) ∧
    shouldAttachRedditImage (mapSet t0 ch ⟨1, 3, 0⟩) ch cfg false q2 n2 =
      (false, mapSet t0 ch ⟨2, 3, 0⟩) ∧
    shouldAttachRedditImage (mapSet t0 ch ⟨2, 3, 0⟩) ch cfg false q3 n3 =
      (true, mapSet t0 ch ⟨0, 3, n3⟩) := by
  have hr1 := rollTarget_degenerate rc q1 hmin hmax hq1 hq1'
  have hr3 := rollTarget_degenerate rc q3 hmin hmax hq3 hq3'
  have hlen1 : ¬ (1000 < (mapSet t0 ch
      (⟨1, rollTarget rc q1, 0⟩ : ChannelMessageTracker)).length) := by
    rw [mapSet_length_of_none t0 ch _ hget]; omega
  rw [hr1] at hlen1
  refine ⟨?_, ?_, ?_⟩
  · simp only [shouldAttachRedditImage, hcfg, if_neg hsub,
      Bool.false_eq_true, if_false, hget, hlen1, hr1]
  · have hg2 : mapGet (mapSet t0 ch
        (⟨1, 3, 0⟩ : ChannelMessageTracker)) ch = some ⟨1, 3, 0⟩ :=
      mapGet_mapSet_self t0 ch _
    simp only [shouldAttachRedditImage, hcfg, if_neg hsub,
      Bool.false_eq_true, if_false, hg2]
    norm_num
    rw [mapSet_mapSet]
  · have hg3 : mapGet (mapSet t0 ch
        (⟨2, 3, 0⟩ : ChannelMessageTracker)) ch = some ⟨2, 3, 0⟩ :=
      mapGet_mapSet_self t0 ch _
    simp only [shouldAttachRedditImage, hcfg, if_neg hsub,
      Bool.false_eq_true, if_false, hg3, hr3]
    norm_num
    rw [mapSet_mapSet]

/-- Witness for C8 on an empty tracker map. -/
theorem media_cadence_scenario_witness :
    shouldAttachRedditImage [] "c" cfgMedia false 0 1 =
      (false, [("c", ⟨1, 3, 0⟩)]) ∧
    shouldAttachRedditImage [("c", ⟨1, 3, 0⟩)] "c" cfgMedia false 0 2 =
      (false, [("c", ⟨2, 3, 0⟩)]) ∧
    shouldAttachRedditImage [("c", ⟨2, 3, 0⟩)] "c" cfgMedia false 0 7 =
      (true, [("c", ⟨0, 3, 7⟩)]) := by
  have h := media_cadence_scenario cfgMedia ⟨["pics"], 3, 3, false⟩ rfl
    (by simp) rfl rfl [] "c" 0 0 0 1 2 7 rfl (by simp)
    (le_refl 0) (by norm_num) (le_refl 0) (by norm_num)
  simpa [mapSet] using h

/-- If every fetched result inside an iteration window is an
already-cached image, the unique-fetch loop finds nothing. -/
theorem getUnseenLoop_all_seen (fetch : ℕ → Option RedditImageData)
    (recent : List String) :
    ∀ (fuel attempt : ℕ),
      (∀ n, attempt ≤ n → n < attempt + fuel →
        ∃ img, fetch n = some img ∧ img.id ∈ recent) →
      getUnseenLoop fetch recent attempt fuel = none := by
  intro fuel
  induction fuel with
  | zero => intro attempt _; rfl
  | succ m ih =>
    intro attempt h
    obtain ⟨img, hf, hmem⟩ := h attempt (le_refl _) (by omega)
    simp only [getUnseenLoop, hf, if_pos hmem]
    exact ih (attempt + 1) (fun n h1 h2 => h n (by omega) (by omega))

/-! ## Claim C9 -/

/-- C9: when all 5 unique-fetch attempts succeed but return ids already in
the channel's recency cache, `getUnseenRandomRedditImage` makes one final
fetch: if it yields an image, that image is returned (not none) and its id
is pushed to the front of the cache capped at 30 entries; only if that
final fetch fails is none returned (with the cache untouched). -/
theorem recency_cache_exhaustion (cfg : AccountConfig)
    (rc : RedditImageConfig) (hcfg : cfg.redditConfig = some rc)
    (hsub : rc.subreddits ≠ [])
    (fetch : ℕ → Option RedditImageData) (cache : List String)
    (hall : ∀ n, n < 5 → ∃ img, fetch n = some img ∧ img.id ∈ cache) :
    (∀ img, fetch 5 = some img →
      getUnseenRandomRedditImage cfg fetch cache =
        (some img, (img.id :: cache).take 30)) ∧
    (fetch 5 = none →
      getUnseenRandomRedditImage cfg fetch cache = (none, cache)) := by
  have hloop : getUnseenLoop fetch cache 0 5 = none :=
    getUnseenLoop_all_seen fetch cache 5 0 (fun n h1 h2 => hall n (by omega))
  constructor
  · intro img hf
    simp only [getUnseenRandomRedditImage, hcfg, if_neg hsub,
      MAX_UNIQUE_IMAGE_FETCH_ATTEMPTS, RECENTLY_SENT_IMAGE_CACHE_SIZE,
      hloop, hf]
  · intro hf
    simp only [getUnseenRandomRedditImage, hcfg, if_neg hsub,
      MAX_UNIQUE_IMAGE_FETCH_ATTEMPTS, RECENTLY_SENT_IMAGE_CACHE_SIZE,
      hloop, hf]

/-- Witness for C9: the final fetch's image is returned and pushed to the
front of the cache. -/
theorem recency_cache_exhaustion_witness :
    getUnseenRandomRedditImage cfgMedia seenFetch ["a"] =
      (some imgB, ["b", "a"]) := by
  have h := (recency_cache_exhaustion cfgMedia ⟨["pics"], 3, 3, false⟩ rfl
    (by simp) seenFetch ["a"]
    (fun n hn => ⟨imgA, by simp [seenFetch, hn], by simp [imgA]⟩)).1 imgB rfl
  simpa [imgB] using h

/-! ## Claim C7 -/

/-- C7 amended: a direct (1:1) channel bypasses the Probability Model as
well as the Chain Guard: any DM not authored by the identity itself, in a
channel it may respond to, is routed to the direct-message reply path
regardless of the identity's response probability and of every random
draw. -/
theorem dm_bypasses_probability (cfg : AccountConfig) (content : String)
    (isMentioned containsAccountName authorIsBot : Bool) (qQ q : ℚ)
    (chains : ChainMap) (channelId : String) (now : ℤ) :
    messageCreateAction false true authorIsBot true cfg content isMentioned
      containsAccountName qQ q chains channelId now = (.dmReply, chains) := by
  simp [messageCreateAction]

/-- C7 counterexample: a bot-kind identity with no engagement level never
passes the response-probability check, yet its DM decision is still the
reply path — so a DM is replied to without the probability check passing. -/
theorem dm_reply_without_probability_counterexample :
    messageCreateAction false true false true
        ⟨"b", .bot, none, none, none, none⟩ "hey" false false 0 0 [] "c" 0 =
      (.dmReply, []) ∧
    shouldAccountRespond ⟨"b", .bot, none, none, none, none⟩ "hey"
      false false 0 0 = false := by
  constructor
  · simp [messageCreateAction]
  · rfl
